import Mathlib

/-!
Verification of the MuseumLangAPI service (`src/main.py`), a FastAPI app that
loads a pickled language-classification pipeline and serves three endpoints:
`GET /`, `POST /identify-language`, and `GET /health`.

Modelling conventions:
* Python floats are modelled as exact rationals (`Rat`); `round(x, 2)` is
  modelled by `pyRound2`, Python's documented round-half-to-even at the second
  decimal place.
* The classifier object obtained from `pickle.load` is opaque in the source;
  it is modelled as a record of two effectful methods returning `Except PyErr`.
  A classifier lacking the `predict_proba` attribute is one whose
  `predict_proba` method returns `PyErr.attributeError`, exactly how Python's
  attribute lookup surfaces the missing capability.
* `raise`/`except` control flow becomes explicit `Except` values; an
  `HTTPException status_code detail` becomes `HttpResult.httpError status detail`.
* To express "the classifier is never invoked", the handler also returns the
  list of classifier calls it performed, in order.
-/

/-- Python exception values relevant to `main.py`, tagged by the exception
class and carrying `str(e)`. -/
inductive PyErr where
  | attributeError : String → PyErr
  | notImplementedError : String → PyErr
  | indexError : String → PyErr
  | valueError : String → PyErr
  | other : String → PyErr
deriving DecidableEq, Repr

/-- The message `str(e)` carried by a Python exception. -/
def pyErrMsg : PyErr → String
  | PyErr.attributeError m => m
  | PyErr.notImplementedError m => m
  | PyErr.indexError m => m
  | PyErr.valueError m => m
  | PyErr.other m => m

/-- The exception classes caught by the inner
`except (AttributeError, NotImplementedError)` clause of `identify_language`. -/
def isCapabilityErr : PyErr → Bool
  | PyErr.attributeError _ => true
  | PyErr.notImplementedError _ => true
  | _ => false

/-- The deserialized model object: `predict` maps a batch of texts to a batch
of labels, `predict_proba` maps a batch of texts to a batch of probability
rows. Either method may raise, which is modelled by `Except.error`. -/
structure Classifier where
  predict : List String → Except PyErr (List String)
  predict_proba : List String → Except PyErr (List (List Rat))

/-- Characters removed by Python's `str.strip()` (ASCII whitespace). -/
def isPySpace (c : Char) : Bool :=
  c == ' ' || c == '\t' || c == '\n' || c == '\r' || c == '\x0b' || c == '\x0c'

/-- Python's `s.strip()`: remove leading and trailing whitespace. -/
def pyStrip (s : String) : String :=
  String.mk (((s.data.dropWhile isPySpace).reverse.dropWhile isPySpace).reverse)

/-- Python's `round(q, 2)`: round to the nearest multiple of 1/100, ties to
the even multiple (banker's rounding), on the exact rational value. -/
def pyRound2 (q : Rat) : Rat :=
  ((if q * 100 - (⌊q * 100⌋ : Rat) < 1/2 then ⌊q * 100⌋
    else if (1 : Rat)/2 < q * 100 - (⌊q * 100⌋ : Rat) then ⌊q * 100⌋ + 1
    else if ⌊q * 100⌋ % 2 = 0 then ⌊q * 100⌋ else ⌊q * 100⌋ + 1 : Int) : Rat) / 100

/-- Python's `max(probabilities[0])` applied to the `predict_proba` result:
`probabilities[0]` raises `IndexError` on an empty batch, and `max` raises
`ValueError` on an empty row; otherwise it folds `max` over the row. -/
def tryMaxFirstRow : List (List Rat) → Except PyErr Rat
  | [] => Except.error (PyErr.indexError ("list index out of range"))
  | row :: _ =>
    match row with
    | [] => Except.error (PyErr.valueError ("max arg is an empty sequence"))
    | p :: ps => Except.ok (ps.foldl max p)

/-- The inner `try` block of `identify_language`: start from `confidence = 0.9`,
attempt `model.predict_proba([text])` followed by `float(max(probabilities[0]))`;
`AttributeError` and `NotImplementedError` are swallowed (keeping 0.9), every
other error propagates. -/
def computeConfidence (m : Classifier) (texts : List String) : Except PyErr Rat :=
  let attempt : Except PyErr Rat :=
    match m.predict_proba texts with
    | Except.error e => Except.error e
    | Except.ok probabilities => tryMaxFirstRow probabilities
  match attempt with
  | Except.ok c => Except.ok c
  | Except.error e =>
    if isCapabilityErr e then Except.ok (9/10) else Except.error e

/-- The `LanguageResponse` pydantic model. -/
structure LanguageResponse where
  language_code : String
  confidence : Rat
deriving DecidableEq, Repr

/-- Outcome of a request at the HTTP boundary: a successful payload (status
200) or an `HTTPException` with a status code and a `detail` string. -/
inductive HttpResult where
  | ok : LanguageResponse → HttpResult
  | httpError : Nat → String → HttpResult
deriving DecidableEq, Repr

/-- HTTP status code of a handler outcome. -/
def statusOf : HttpResult → Nat
  | HttpResult.ok _ => 200
  | HttpResult.httpError s _ => s

/-- A call performed on the loaded classifier, with its argument. -/
inductive ClassifierCall where
  | predict : List String → ClassifierCall
  | predict_proba : List String → ClassifierCall
deriving DecidableEq, Repr

/-- Detail string of the 400 response for blank input. -/
def emptyInputDetail : String := "Il testo non può essere vuoto"

/-- Detail string of the 500 response, wrapping `str(e)`. -/
def predictionDetail (m : String) : String :=
  "Errore durante l\x27identificazione della lingua: " ++ m

/-- Message of the `AttributeError` raised by `model.predict` when the global
`model` is still `None`. -/
def noneTypeMsg : String :=
  "\x27NoneType\x27 object has no attribute \x27predict\x27"

/-- The `POST /identify-language` handler. Mirrors `identify_language` in
`main.py`: reject blank text with 400 before touching the model; then, inside
the outer `try`, call `model.predict([text])`, compute the confidence
(`computeConfidence`), index `predicted_language[0]`, and round the
confidence; any uncaught exception becomes a 500 with a wrapped detail.
Also returns the classifier calls performed. -/
def identify_language (model : Option Classifier) (text : String) :
    HttpResult × List ClassifierCall :=
  if text = "" ∨ pyStrip text = "" then
    (HttpResult.httpError 400 emptyInputDetail, [])
  else
    match model with
    | none =>
      (HttpResult.httpError 500 (predictionDetail noneTypeMsg), [])
    | some m =>
      match m.predict [text] with
      | Except.error e =>
        (HttpResult.httpError 500 (predictionDetail (pyErrMsg e)),
          [ClassifierCall.predict [text]])
      | Except.ok predicted_language =>
        match computeConfidence m [text] with
        | Except.error e =>
          (HttpResult.httpError 500 (predictionDetail (pyErrMsg e)),
            [ClassifierCall.predict [text], ClassifierCall.predict_proba [text]])
        | Except.ok confidence =>
          match predicted_language with
          | [] =>
            (HttpResult.httpError 500 (predictionDetail ("list index out of range")),
              [ClassifierCall.predict [text], ClassifierCall.predict_proba [text]])
          | code :: _ =>
            (HttpResult.ok { language_code := code, confidence := pyRound2 confidence },
              [ClassifierCall.predict [text], ClassifierCall.predict_proba [text]])

/-- The filesystem facts `load_model` depends on: whether `MODEL_PATH` exists
and what `pickle.load` yields on its contents (`str(e)` of the raised
exception when deserialization fails). -/
structure FileSystem where
  path_exists : Bool
  pickle_load : Except String Classifier

/-- `load_model` from `main.py`: inside a `try`, raise `FileNotFoundError`
when the path is missing, otherwise return the result of `pickle.load`; the
`except` clause wraps any escaping error into
`RuntimeError("Impossibile caricare il modello: " + str(e))`. -/
def load_model (fs : FileSystem) (model_path : String) : Except String Classifier :=
  let attempt : Except String Classifier :=
    if !fs.path_exists then
      Except.error ("File del modello non trovato in: " ++ model_path)
    else
      fs.pickle_load
  match attempt with
  | Except.ok loaded_model => Except.ok loaded_model
  | Except.error e => Except.error ("Impossibile caricare il modello: " ++ e)

/-- A `datetime.datetime` value; the field types carry the documented range
invariants of Python's `datetime` (year in 1..9999 and so on). -/
structure PyDateTime where
  year : Fin 10000
  month : Fin 13
  day : Fin 32
  hour : Fin 24
  minute : Fin 60
  second : Fin 60
  microsecond : Fin 1000000

/-- Decimal digit character of `n mod 10`. -/
def digitOf (n : Nat) : Char := Nat.digitChar (n % 10)

/-- Fixed-width two-digit decimal rendering (`%02d` for values below 100). -/
def pad2 (n : Nat) : List Char := [digitOf (n / 10), digitOf n]

/-- Fixed-width four-digit decimal rendering (`%04d` for values below 10000). -/
def pad4 (n : Nat) : List Char :=
  [digitOf (n / 1000), digitOf (n / 100), digitOf (n / 10), digitOf n]

/-- Fixed-width six-digit decimal rendering (`%06d` for values below 1000000). -/
def pad6 (n : Nat) : List Char :=
  [digitOf (n / 100000), digitOf (n / 10000), digitOf (n / 1000),
   digitOf (n / 100), digitOf (n / 10), digitOf n]

/-- Modelled from the spec: Python's `datetime.isoformat()` (the stdlib is not
part of the repository) produces `YYYY-MM-DDTHH:MM:SS`, followed by `.ffffff`
exactly when `microsecond` is nonzero. -/
def PyDateTime.isoformat (d : PyDateTime) : String :=
  String.mk (pad4 d.year.val ++ '-' :: pad2 d.month.val ++ '-' :: pad2 d.day.val ++
    'T' :: pad2 d.hour.val ++ ':' :: pad2 d.minute.val ++ ':' :: pad2 d.second.val ++
    (if d.microsecond.val = 0 then [] else '.' :: pad6 d.microsecond.val))

/-- The `GET /health` response body. -/
structure HealthStatus where
  status : String
  timestamp : String
deriving DecidableEq, Repr

/-- The `health_check` handler from `main.py`: constant status string paired
with `datetime.now().isoformat()`; the current time is passed explicitly. -/
def health_check (now : PyDateTime) : HealthStatus :=
  { status := "healthy", timestamp := now.isoformat }

/-- Check of the optional fractional-seconds part of an ISO-8601 timestamp:
absent, or a dot followed by at least one digit. -/
def fractionPartOk : List Char → Bool
  | [] => true
  | c :: fs => c == '.' && !fs.isEmpty && fs.all Char.isDigit

/-- Recognizer for ISO-8601 combined date-time strings of the shape
`YYYY-MM-DDTHH:MM:SS[.ffffff]`. -/
def isISO8601Chars : List Char → Bool
  | y1 :: y2 :: y3 :: y4 :: c5 :: m1 :: m2 :: c8 :: d1 :: d2 :: c11 ::
      h1 :: h2 :: c14 :: n1 :: n2 :: c17 :: s1 :: s2 :: rest =>
    y1.isDigit && y2.isDigit && y3.isDigit && y4.isDigit && c5 == '-' &&
    m1.isDigit && m2.isDigit && c8 == '-' && d1.isDigit && d2.isDigit &&
    c11 == 'T' && h1.isDigit && h2.isDigit && c14 == ':' &&
    n1.isDigit && n2.isDigit && c17 == ':' && s1.isDigit && s2.isDigit &&
    fractionPartOk rest
  | _ => false

/-- A string parses as an ISO-8601 date-time. -/
def isISO8601 (s : String) : Bool := isISO8601Chars s.data

/-- The `endpoints` map in the root payload. -/
structure Endpoints where
  identify_language : String
  health : String
  docs : String
deriving DecidableEq, Repr

/-- The `GET /` response body. -/
structure RootResponse where
  message : String
  version : String
  endpoints : Endpoints
deriving DecidableEq, Repr

/-- The constant payload returned by the `root` handler in `main.py`. -/
def root : RootResponse :=
  { message := "Benvenuto all\x27API di MuseumLangID"
    version := "1.0.0"
    endpoints :=
      { identify_language := "/identify-language"
        health := "/health"
        docs := "/docs" } }

/-- The mutable process state visible to the handlers: the global `model`. -/
structure ServerState where
  model : Option Classifier

/-- `GET /` handled against a server state: the handler body reads nothing
from the state and writes nothing to it. -/
def root_route (s : ServerState) : RootResponse × ServerState := (root, s)

/-- `GET /health` handled against a server state: the handler body never
consults the model. -/
def health_route (s : ServerState) (now : PyDateTime) : HealthStatus × ServerState :=
  (health_check now, s)

/-- `POST /identify-language` handled against a server state: the handler
reads the global `model` and mutates nothing. -/
def identify_language_route (s : ServerState) (text : String) :
    (HttpResult × List ClassifierCall) × ServerState :=
  (identify_language s.model text, s)

/-- A probabilistic classifier used in witnesses: predicts `"IT"` with
probability row `[0.01, 0.98, 0.01]`. -/
def itClassifier : Classifier where
  predict := fun _ => Except.ok ["IT"]
  predict_proba := fun _ => Except.ok [[1/100, 98/100, 1/100]]

/-- A point classifier without the `predict_proba` capability. -/
def pointClassifier : Classifier where
  predict := fun _ => Except.ok ["EN"]
  predict_proba := fun _ =>
    Except.error (PyErr.attributeError
      ("Pipeline object has no attribute predict_proba"))

/-- A classifier whose `predict` raises an unexpected runtime error. -/
def brokenClassifier : Classifier where
  predict := fun _ => Except.error (PyErr.other ("unexpected failure"))
  predict_proba := fun _ => Except.error (PyErr.other ("unexpected failure"))

/-! ## Theorems -/

/-- Evaluation rule for `pyRound2` when the scaled value is an exact integer:
no rounding happens. -/
theorem pyRound2_of_mul_eq_intCast (q : Rat) (r : Int) (h : q * 100 = (r : Rat)) :
    pyRound2 q = (r : Rat) / 100 := by
  unfold pyRound2
  rw [h, Int.floor_intCast]
  norm_num

/-- `pyRound2` always yields an integer number of hundredths. -/
theorem pyRound2_exists_int (q : Rat) : ∃ r : Int, pyRound2 q = (r : Rat) / 100 := by
  unfold pyRound2
  exact ⟨_, rfl⟩

/-- `pyRound2` is idempotent: a value already rounded to hundredths is fixed. -/
theorem pyRound2_idem (q : Rat) : pyRound2 (pyRound2 q) = pyRound2 q := by
  obtain ⟨r, hr⟩ := pyRound2_exists_int q
  rw [hr, pyRound2_of_mul_eq_intCast ((r : Rat) / 100) r (by field_simp)]

/-- `pyRound2` maps the unit interval into the unit interval. -/
theorem pyRound2_mem_unit (q : Rat) (h0 : 0 ≤ q) (h1 : q ≤ 1) :
    0 ≤ pyRound2 q ∧ pyRound2 q ≤ 1 := by
  have hs0 : (0:Rat) ≤ q * 100 := by positivity
  have hs1 : q * 100 ≤ 100 := by nlinarith
  have hf0 : (0:Int) ≤ ⌊q * 100⌋ := Int.floor_nonneg.mpr hs0
  have hc0 : (0:Rat) ≤ ((⌊q * 100⌋ : Int) : Rat) := by exact_mod_cast hf0
  have hfle : ((⌊q * 100⌋ : Int) : Rat) ≤ q * 100 := Int.floor_le _
  have hkey : ¬ q * 100 - ((⌊q * 100⌋ : Int) : Rat) < 1/2 →
      ((⌊q * 100⌋ : Int) : Rat) + 1 ≤ 100 := by
    intro hc
    have hge : 1/2 ≤ q * 100 - ((⌊q * 100⌋ : Int) : Rat) := le_of_not_lt hc
    have h3 : ((⌊q * 100⌋ : Int) : Rat) < 100 := by linarith
    have h4 : ⌊q * 100⌋ < (100:Int) := by exact_mod_cast h3
    have h5 : ⌊q * 100⌋ + 1 ≤ (100:Int) := by omega
    exact_mod_cast h5
  unfold pyRound2
  refine ⟨div_nonneg ?_ (by norm_num), ?_⟩
  · split_ifs <;> push_cast <;> linarith
  · rw [div_le_one (by norm_num : (0:Rat) < 100)]
    split_ifs with hlt hgt heven
    · linarith
    · have := hkey hlt
      push_cast
      linarith
    · linarith
    · have := hkey hlt
      push_cast
      linarith

/-- Folding `max` over a list stays within any interval containing the seed
and all elements. -/
theorem foldl_max_bounds (lo hi p : Rat) (ps : List Rat)
    (hp : lo ≤ p ∧ p ≤ hi) (hps : ∀ x ∈ ps, lo ≤ x ∧ x ≤ hi) :
    lo ≤ ps.foldl max p ∧ ps.foldl max p ≤ hi := by
  induction ps generalizing p with
  | nil => exact hp
  | cons x xs ih =>
    simp only [List.foldl_cons]
    apply ih
    · exact ⟨le_trans hp.1 (le_max_left _ _),
        max_le hp.2 (hps x (List.mem_cons_self x xs)).2⟩
    · intro y hy
      exact hps y (List.mem_cons_of_mem _ hy)

/-- The 500 detail string always has a non-empty prefix. -/
theorem predictionDetail_ne_empty (msg : String) : predictionDetail msg ≠ "" := by
  intro h
  have h2 : (predictionDetail msg).length = 0 := by rw [h]; rfl
  rw [predictionDetail, String.length_append] at h2
  have h3 : 0 < ("Errore durante l\x27identificazione della lingua: ").length := by
    decide
  omega

/-- Appending to a fixed string on the left is injective. -/
theorem string_append_left_cancel (s a b : String) (h : s ++ a = s ++ b) : a = b := by
  have hd : s.data ++ a.data = s.data ++ b.data := by
    rw [← String.data_append, ← String.data_append, h]
  have := List.append_cancel_left hd
  cases a
  cases b
  exact congrArg String.mk this

/-- C2: for every model state and every empty or whitespace-only text, the
`POST /identify-language` handler answers 400 with a non-empty detail string
and the classifier is never invoked (the call trace is empty). -/
theorem empty_input_rejected_without_classifier (model : Option Classifier)
    (text : String) (h : text = "" ∨ pyStrip text = "") :
    identify_language model text = (HttpResult.httpError 400 emptyInputDetail, []) ∧
      statusOf (identify_language model text).1 = 400 ∧
      emptyInputDetail ≠ "" := by
  have hif : identify_language model text =
      (HttpResult.httpError 400 emptyInputDetail, []) := by
    unfold identify_language
    rw [if_pos h]
  refine ⟨hif, ?_, by decide⟩
  rw [hif]
  rfl

/-- Witness for C2: a whitespace-only input against a loaded classifier. -/
theorem empty_input_rejected_without_classifier_witness :
    identify_language (some itClassifier) "   " =
      (HttpResult.httpError 400 emptyInputDetail, []) :=
  (empty_input_rejected_without_classifier (some itClassifier) "   "
    (Or.inr (by decide))).1

/-- C9: blank input is answered 400 even when the global model is `None` or
the model would itself fail: the emptiness check precedes the `try` block, so
the 400 is never caught and remapped to a 500. -/
theorem empty_input_precedes_model_use (text : String)
    (h : text = "" ∨ pyStrip text = "") :
    identify_language none text = (HttpResult.httpError 400 emptyInputDetail, []) ∧
      identify_language (some brokenClassifier) text =
        (HttpResult.httpError 400 emptyInputDetail, []) := by
  constructor <;> (unfold identify_language; rw [if_pos h])

/-- Witness for C9: the empty string with no model loaded. -/
theorem empty_input_precedes_model_use_witness :
    identify_language none "" = (HttpResult.httpError 400 emptyInputDetail, []) :=
  (empty_input_precedes_model_use "" (Or.inl rfl)).1

/-- C7: `GET /` is deterministic and side-effect-free: any two calls return
the identical structure `{message, version, endpoints}` with the documented
values, and the server state is unchanged by a call. -/
theorem root_deterministic_side_effect_free (s t : ServerState) :
    (root_route s).1 = (root_route t).1 ∧
      (root_route s).2 = s ∧
      (root_route s).1 =
        { message := "Benvenuto all\x27API di MuseumLangID"
          version := "1.0.0"
          endpoints :=
            { identify_language := "/identify-language"
              health := "/health"
              docs := "/docs" } } :=
  ⟨rfl, rfl, rfl⟩

/-- C10: the handler is total at the HTTP boundary: for every model state and
every text (including classifiers returning empty label lists or empty
probability rows), it yields status 200, 400 or 500 and nothing else. -/
theorem identify_language_total_at_http_boundary (model : Option Classifier)
    (text : String) :
    statusOf (identify_language model text).1 = 200 ∨
      statusOf (identify_language model text).1 = 400 ∨
      statusOf (identify_language model text).1 = 500 := by
  unfold identify_language
  repeat' split
  all_goals simp [statusOf]

/-- C1: on non-blank text, when `predict` yields labels and `predict_proba`
yields a probability matrix with a nonempty first row, the handler answers
status 200 with `language_code` the first predicted label and `confidence`
the rounded maximum of the first probability row. -/
theorem identify_language_success (m : Classifier) (text code : String)
    (labels : List String) (p : Rat) (ps : List Rat) (rows : List (List Rat))
    (hne : ¬ (text = "" ∨ pyStrip text = ""))
    (hpred : m.predict [text] = Except.ok (code :: labels))
    (hproba : m.predict_proba [text] = Except.ok ((p :: ps) :: rows)) :
    identify_language (some m) text =
      (HttpResult.ok
        { language_code := code, confidence := pyRound2 (ps.foldl max p) },
        [ClassifierCall.predict [text], ClassifierCall.predict_proba [text]]) ∧
      statusOf (identify_language (some m) text).1 = 200 := by
  have hconf : computeConfidence m [text] = Except.ok (ps.foldl max p) := by
    unfold computeConfidence
    rw [hproba]
    rfl
  have hmain : identify_language (some m) text =
      (HttpResult.ok
        { language_code := code, confidence := pyRound2 (ps.foldl max p) },
        [ClassifierCall.predict [text], ClassifierCall.predict_proba [text]]) := by
    unfold identify_language
    rw [if_neg hne]
    simp only [hpred, hconf]
  refine ⟨hmain, ?_⟩
  rw [hmain]
  rfl

/-- Witness for C1: the spec scenario, text `"Questo è un esempio di testo."`
against a classifier predicting `"IT"` with top probability 0.98; the
response is `language_code = "IT"`, `confidence = 0.98`. -/
theorem identify_language_success_witness :
    identify_language (some itClassifier) "Questo è un esempio di testo." =
      (HttpResult.ok { language_code := "IT", confidence := 49/50 },
        [ClassifierCall.predict ["Questo è un esempio di testo."],
         ClassifierCall.predict_proba ["Questo è un esempio di testo."]]) := by
  have h := (identify_language_success itClassifier "Questo è un esempio di testo."
    "IT" [] (1/100) [98/100, 1/100] [] (by decide) rfl rfl).1
  rw [h]
  have hfold : (([98/100, 1/100] : List Rat).foldl max (1/100)) = 49/50 := by
    norm_num [List.foldl, max_def]
  rw [hfold, pyRound2_of_mul_eq_intCast (49/50) 98 (by norm_num)]
  norm_num

/-- C3: against a classifier with no probability capability (its
`predict_proba` raises `AttributeError` or `NotImplementedError`), every
successful identification carries confidence exactly 0.9. -/
theorem no_probability_fallback_confidence (m : Classifier) (text code : String)
    (labels : List String) (e : PyErr)
    (hne : ¬ (text = "" ∨ pyStrip text = ""))
    (hpred : m.predict [text] = Except.ok (code :: labels))
    (hproba : m.predict_proba [text] = Except.error e)
    (hcap : isCapabilityErr e = true) :
    identify_language (some m) text =
      (HttpResult.ok { language_code := code, confidence := 9/10 },
        [ClassifierCall.predict [text], ClassifierCall.predict_proba [text]]) := by
  have hconf : computeConfidence m [text] = Except.ok (9/10) := by
    unfold computeConfidence
    rw [hproba]
    simp [hcap]
  have h90 : pyRound2 (9/10) = 9/10 := by
    rw [pyRound2_of_mul_eq_intCast (9/10) 90 (by norm_num)]
    norm_num
  unfold identify_language
  rw [if_neg hne]
  simp only [hpred, hconf, h90]

/-- Witness for C3: a point classifier without `predict_proba`, on a concrete
text, answers with confidence 0.9. -/
theorem no_probability_fallback_confidence_witness :
    identify_language (some pointClassifier) "some museum text" =
      (HttpResult.ok { language_code := "EN", confidence := 9/10 },
        [ClassifierCall.predict ["some museum text"],
         ClassifierCall.predict_proba ["some museum text"]]) :=
  no_probability_fallback_confidence pointClassifier "some museum text" "EN" []
    (PyErr.attributeError ("Pipeline object has no attribute predict_proba"))
    (by decide) rfl rfl rfl

theorem identify_language_ok_inversion (model : Option Classifier) (text : String)
    (resp : LanguageResponse) (calls : List ClassifierCall)
    (hok : identify_language model text = (HttpResult.ok resp, calls)) :
    ∃ m c code labels, model = some m ∧
      computeConfidence m [text] = Except.ok c ∧
      m.predict [text] = Except.ok (code :: labels) ∧
      resp = { language_code := code, confidence := pyRound2 c } := by
  unfold identify_language at hok
  split at hok
  · simp at hok
  · split at hok
    · simp at hok
    · split at hok
      · simp at hok
      · split at hok
        · simp at hok
        · split at hok
          · simp at hok
          · rename_i m x1 x2 confidence hconf predicted code tail hpred
            rw [Prod.mk.injEq] at hok
            obtain ⟨h1, h2⟩ := hok
            injection h1 with h1
            exact ⟨m, confidence, code, tail, rfl, hconf, hpred, h1.symm⟩

theorem computeConfidence_ok_cases (m : Classifier) (texts : List String) (c : Rat)
    (h : computeConfidence m texts = Except.ok c) :
    c = 9/10 ∨
      ∃ p ps rest, m.predict_proba texts = Except.ok ((p :: ps) :: rest) ∧
        c = ps.foldl max p := by
  unfold computeConfidence at h
  cases hp : m.predict_proba texts with
  | error e =>
    rw [hp] at h
    by_cases hc : isCapabilityErr e = true
    · simp [hc] at h
      exact Or.inl h.symm
    · simp [hc] at h
  | ok probabilities =>
    rw [hp] at h
    cases probabilities with
    | nil => simp [tryMaxFirstRow, isCapabilityErr] at h
    | cons row rest =>
      cases row with
      | nil => simp [tryMaxFirstRow, isCapabilityErr] at h
      | cons p ps =>
        simp [tryMaxFirstRow] at h
        exact Or.inr ⟨p, ps, rest, rfl, h.symm⟩

theorem confidence_rounded_in_unit_interval (model : Option Classifier)
    (text : String) (resp : LanguageResponse) (calls : List ClassifierCall)
    (hok : identify_language model text = (HttpResult.ok resp, calls))
    (hdist : ∀ (m : Classifier) rows row q, model = some m →
      m.predict_proba [text] = Except.ok rows → row ∈ rows → q ∈ row →
      0 ≤ q ∧ q ≤ 1) :
    0 ≤ resp.confidence ∧ resp.confidence ≤ 1 ∧
      pyRound2 resp.confidence = resp.confidence := by
  obtain ⟨m, c, code, labels, hm, hconf, hpred, hresp⟩ :=
    identify_language_ok_inversion model text resp calls hok
  have hc01 : 0 ≤ c ∧ c ≤ 1 := by
    rcases computeConfidence_ok_cases m [text] c hconf with h9 | ⟨p, ps, rest, hp, hc⟩
    · rw [h9]
      norm_num
    · subst hc
      apply foldl_max_bounds 0 1
      · exact hdist m ((p :: ps) :: rest) (p :: ps) p hm hp
          (List.mem_cons_self _ _) (List.mem_cons_self _ _)
      · intro x hx
        exact hdist m ((p :: ps) :: rest) (p :: ps) x hm hp
          (List.mem_cons_self _ _) (List.mem_cons_of_mem _ hx)
  have hmem := pyRound2_mem_unit c hc01.1 hc01.2
  rw [hresp]
  exact ⟨hmem.1, hmem.2, pyRound2_idem c⟩

theorem digitChar_isDigit_lt10 : ∀ k, k < 10 → (Nat.digitChar k).isDigit = true := by
  decide

theorem digitOf_isDigit (n : Nat) : (digitOf n).isDigit = true :=
  digitChar_isDigit_lt10 (n % 10) (Nat.mod_lt _ (by norm_num))

theorem isoformat_isISO8601 (d : PyDateTime) : isISO8601 d.isoformat = true := by
  unfold isISO8601 PyDateTime.isoformat
  simp only [pad4, pad2, pad6, List.cons_append, List.nil_append]
  by_cases hm : d.microsecond.val = 0
  · simp [hm, isISO8601Chars, fractionPartOk, digitOf_isDigit]
  · simp [hm, isISO8601Chars, fractionPartOk, digitOf_isDigit]

theorem health_always_healthy_iso8601 (s : ServerState) (now : PyDateTime) :
    (health_route s now).1.status = "healthy" ∧
      isISO8601 (health_route s now).1.timestamp = true ∧
      (health_route s now).2 = s :=
  ⟨rfl, isoformat_isISO8601 now, rfl⟩

theorem prediction_failure_surfaces_500 (s : ServerState) (m : Classifier)
    (text : String) (e : PyErr)
    (hs : s.model = some m)
    (hne : ¬ (text = "" ∨ pyStrip text = ""))
    (hcap : isCapabilityErr e = false)
    (hcase : m.predict [text] = Except.error e ∨
      (∃ labels, m.predict [text] = Except.ok labels ∧
        m.predict_proba [text] = Except.error e)) :
    (∃ calls, identify_language_route s text =
        ((HttpResult.httpError 500 (predictionDetail (pyErrMsg e)), calls), s)) ∧
      predictionDetail (pyErrMsg e) ≠ "" ∧
      ∀ now, (health_route s now).1.status = "healthy" := by
  refine ⟨?_, predictionDetail_ne_empty _, fun now => rfl⟩
  unfold identify_language_route
  rw [hs]
  rcases hcase with hpred | ⟨labels, hpred, hproba⟩
  · refine ⟨[ClassifierCall.predict [text]], ?_⟩
    unfold identify_language
    rw [if_neg hne]
    simp only [hpred]
  · have hconf : computeConfidence m [text] = Except.error e := by
      unfold computeConfidence
      rw [hproba]
      simp [hcap]
    refine ⟨[ClassifierCall.predict [text], ClassifierCall.predict_proba [text]], ?_⟩
    unfold identify_language
    rw [if_neg hne]
    simp only [hpred, hconf]

theorem prediction_failure_surfaces_500_witness :
    (∃ calls, identify_language_route ⟨some brokenClassifier⟩ "Bonjour" =
        ((HttpResult.httpError 500
          (predictionDetail (pyErrMsg (PyErr.other ("unexpected failure")))), calls),
          ⟨some brokenClassifier⟩)) ∧
      predictionDetail (pyErrMsg (PyErr.other ("unexpected failure"))) ≠ "" ∧
      ∀ now, (health_route ⟨some brokenClassifier⟩ now).1.status = "healthy" :=
  prediction_failure_surfaces_500 ⟨some brokenClassifier⟩ brokenClassifier "Bonjour"
    (PyErr.other ("unexpected failure")) rfl (by decide) rfl (Or.inl rfl)

theorem load_model_distinct_errors (fs1 fs2 : FileSystem) (model_path msg : String)
    (h1 : fs1.path_exists = false)
    (h2 : fs2.path_exists = true)
    (h3 : fs2.pickle_load = Except.error msg)
    (h4 : msg ≠ "File del modello non trovato in: " ++ model_path) :
    load_model fs1 model_path =
        Except.error ("Impossibile caricare il modello: " ++
          ("File del modello non trovato in: " ++ model_path)) ∧
      load_model fs2 model_path =
        Except.error ("Impossibile caricare il modello: " ++ msg) ∧
      load_model fs1 model_path ≠ load_model fs2 model_path ∧
      (∀ c, load_model fs1 model_path ≠ Except.ok c) ∧
      (∀ c, load_model fs2 model_path ≠ Except.ok c) := by
  have e1 : load_model fs1 model_path =
      Except.error ("Impossibile caricare il modello: " ++
        ("File del modello non trovato in: " ++ model_path)) := by
    simp [load_model, h1]
  have e2 : load_model fs2 model_path =
      Except.error ("Impossibile caricare il modello: " ++ msg) := by
    simp [load_model, h2, h3]
  refine ⟨e1, e2, ?_, ?_, ?_⟩
  · rw [e1, e2]
    intro heq
    injection heq with heq
    exact h4 ((string_append_left_cancel _ _ _ heq).symm)
  · intro c hc
    rw [e1] at hc
    exact Except.noConfusion hc
  · intro c hc
    rw [e2] at hc
    exact Except.noConfusion hc

theorem load_model_distinct_errors_witness :
    load_model ⟨false, Except.error ("anything")⟩ "models/language_detection_pipeline.pkl" =
        Except.error ("Impossibile caricare il modello: " ++
          ("File del modello non trovato in: " ++ "models/language_detection_pipeline.pkl")) ∧
      load_model ⟨true, Except.error ("invalid load key")⟩ "models/language_detection_pipeline.pkl" =
        Except.error ("Impossibile caricare il modello: " ++ "invalid load key") ∧
      load_model ⟨false, Except.error ("anything")⟩ "models/language_detection_pipeline.pkl" ≠
        load_model ⟨true, Except.error ("invalid load key")⟩ "models/language_detection_pipeline.pkl" ∧
      (∀ c, load_model ⟨false, Except.error ("anything")⟩ "models/language_detection_pipeline.pkl" ≠ Except.ok c) ∧
      (∀ c, load_model ⟨true, Except.error ("invalid load key")⟩ "models/language_detection_pipeline.pkl" ≠ Except.ok c) :=
  load_model_distinct_errors ⟨false, Except.error ("anything")⟩
    ⟨true, Except.error ("invalid load key")⟩ "models/language_detection_pipeline.pkl"
    "invalid load key" rfl rfl rfl (by decide)

theorem confidence_rounded_in_unit_interval_witness :
    ∃ resp calls,
      identify_language (some itClassifier) "Questo è un esempio di testo." =
        (HttpResult.ok resp, calls) ∧
      0 ≤ resp.confidence ∧ resp.confidence ≤ 1 ∧
      pyRound2 resp.confidence = resp.confidence := by
  have hok : identify_language (some itClassifier) "Questo è un esempio di testo." =
      (HttpResult.ok
        { language_code := "IT"
          confidence := pyRound2 (([98/100, 1/100] : List Rat).foldl max (1/100)) },
        [ClassifierCall.predict ["Questo è un esempio di testo."],
         ClassifierCall.predict_proba ["Questo è un esempio di testo."]]) := by
    unfold identify_language
    rw [if_neg (by decide : ¬("Questo è un esempio di testo." = "" ∨
      pyStrip "Questo è un esempio di testo." = ""))]
    rfl
  refine ⟨_, _, hok,
    confidence_rounded_in_unit_interval (some itClassifier)
      "Questo è un esempio di testo." _ _ hok ?_⟩
  intro m rows row q hm hr hrow hq
  injection hm with hm
  subst hm
  have hr2 : (Except.ok [[(1:Rat)/100, 98/100, 1/100]] :
      Except PyErr (List (List Rat))) = Except.ok rows := hr
  injection hr2 with hr2
  subst hr2
  simp at hrow
  subst hrow
  simp at hq
  rcases hq with h | h | h <;> subst h <;> norm_num
